import Mathlib

/-!
# Verification of `opentracing_flask` (justanr/opentracing-flask)

Shallow embedding of `src/opentracing_flask/__init__.py`: the per-context
active-span stack (`_ActiveSpanManager` over werkzeug's `LocalStack`), the
lifecycle coordinator (`OpenTracingFlask`) that maps Flask signals to stack
operations, and the module-level `tracing` accessor.

Spans created by the tracer are modelled concretely as records carrying the
operation name, the parent reference handed to the tracer, the tag list and
the structured log entries; the tracer's `start_active_span` is modelled as
allocating the next span id and seeding it with the tags it was given.
Tag-name constants (`component`, `http.method`, `http.url`, `span.kind`,
`http.status_code`, `error`, `server`) are the standard values exported by
`opentracing.ext.tags`.
-/

namespace OpentracingFlask

/-- A tag value: Python tag values used by the code are strings, ints and
booleans. -/
inductive TagValue where
  | str (s : String)
  | int (n : Int)
  | bool (b : Bool)
deriving DecidableEq, Repr

/-- A span as created and mutated by the code: `operation_name`, the
`child_of` parent reference given to the tracer, the tag list (in the order
`set_tag` was called, seeded with the coordinator's global tags), and
`log_kv` entries. -/
structure Span where
  operation : String
  parent : Option String
  tags : List (String × TagValue)
  logs : List (List (String × String))
deriving DecidableEq, Repr

/-- A frame of `_tracing_span_ctx_stack`: `_ActiveSpanManager.push` pushes
the pair `(self, scope)`; `owner` is the identity of the manager and
`scopeSpan` the id of the scope's span. -/
structure Frame where
  owner : Nat
  scopeSpan : Nat
deriving DecidableEq, Repr

/-- The per-execution-context tracing state: the context-local span stack
(head = top), the list of every span the tracer has created for this context
(span id = position in this list), and the log of span ids in the order
`scope.close()` was called on them. -/
structure TraceState where
  stack : List Frame
  spans : List Span
  closed : List Nat
deriving DecidableEq, Repr

/-- The state of a fresh execution context: empty stack, no spans created,
nothing closed. -/
def emptyState : TraceState := { stack := [], spans := [], closed := [] }

/-- A Flask request as the code consumes it: `request.endpoint` (None or a
possibly-empty string), `request.method`, `request.path`,
`request.headers`. -/
structure Request where
  endpoint : Option String
  method : String
  path : String
  headers : List (String × String)
deriving DecidableEq, Repr

/-- The `OpenTracingFlask` coordinator configuration: the identity of its
private `_ActiveSpanManager`, `_trace_static`, `_global_tags` and
`_request_filter` (defaulting to `lambda request: True` is the caller's
concern; here it is an arbitrary predicate). -/
structure Coordinator where
  owner : Nat
  traceStatic : Bool
  globalTags : List (String × TagValue)
  requestFilter : Request → Bool

/-- `current_span`: reads `_tracing_span_ctx_stack.top`; `None` when the
stack is empty, otherwise the top frame's span. -/
def currentSpan (st : TraceState) : Option Nat :=
  match st.stack with
  | [] => none
  | f :: _ => some f.scopeSpan

/-- `span.set_tag(k, v)`: appends `(k, v)` to the tag list of span `sid`,
leaving every other span, the stack and the close log untouched. -/
def setTag (st : TraceState) (sid : Nat) (k : String) (v : TagValue) : TraceState :=
  { st with
    spans := List.modify (fun sp => { sp with tags := sp.tags ++ [(k, v)] }) sid st.spans }

/-- `span.log_kv(mapping)`: appends one structured log entry to span `sid`. -/
def logKv (st : TraceState) (sid : Nat) (entry : List (String × String)) : TraceState :=
  { st with
    spans := List.modify (fun sp => { sp with logs := sp.logs ++ [entry] }) sid st.spans }

/-- `OpenTracingFlask.start_active_span(operation, parent)`: the tracer
starts a span seeded with a copy of the coordinator's global tags, and the
manager pushes `(self, scope)` onto the context-local stack. Returns the
new state and the id of the span. -/
def startActiveSpan (c : Coordinator) (st : TraceState) (operation : String)
    (parent : Option String) : TraceState × Nat :=
  let sid := st.spans.length
  let sp : Span := { operation := operation, parent := parent,
                     tags := c.globalTags, logs := [] }
  ({ st with
      spans := st.spans ++ [sp],
      stack := { owner := c.owner, scopeSpan := sid } :: st.stack }, sid)

/-- Result of `_ActiveSpanManager.pop`: either the state after a successful
pop together with the popped span id, or the ownership-violation
`RuntimeError("popped wrong span context ...")` carrying the state in which
the error is raised. -/
inductive PopResult where
  | ok (st : TraceState) (sid : Nat)
  | ownershipViolation (st : TraceState)
deriving DecidableEq, Repr

/-- `_ActiveSpanManager.pop`: `rv = _tracing_span_ctx_stack.pop()` removes
the top frame first (returning `None` on an empty stack); then, if `rv` is
`None` or `rv[0] is not self`, raises the ownership `RuntimeError`.
Note the mismatched frame has already been removed when the error is
raised. -/
def managerPop (owner : Nat) (st : TraceState) : PopResult :=
  match st.stack with
  | [] => .ownershipViolation st
  | f :: rest =>
      let st' := { st with stack := rest }
      if f.owner = owner then .ok st' f.scopeSpan
      else .ownershipViolation st'

/-- Result of a coordinator operation: the new state, or the state at which
an ownership `RuntimeError` escaped. -/
inductive StepResult where
  | ok (st : TraceState)
  | err (st : TraceState)
deriving DecidableEq, Repr

/-- `OpenTracingFlask.end_active_span`: `if current_span:` (falsy exactly
when the stack is empty) `scope = self._span_manager.pop(); scope.close()`.
Closing appends the span id to the close log. -/
def endActiveSpan (c : Coordinator) (st : TraceState) : StepResult :=
  match currentSpan st with
  | none => .ok st
  | some _ =>
      match managerPop c.owner st with
      | .ok st' sid => .ok { st' with closed := st'.closed ++ [sid] }
      | .ownershipViolation st' => .err st'

/-- `_ActiveSpanManager.current`: `_tracing_span_ctx_stack.top[1]`, with the
`TypeError` on an empty stack caught and turned into `None`. -/
def managerCurrent (st : TraceState) : Option Nat :=
  match st.stack with
  | [] => none
  | f :: _ => some f.scopeSpan

/-- Fuel-indexed body of the `while self._span_manager.current is not None`
loop of `end_all_spans`; each successful iteration shortens the stack by
one, so `st.stack.length` fuel suffices. -/
def endAllSpansGo (c : Coordinator) : Nat → TraceState → StepResult
  | 0, st => .ok st
  | n + 1, st =>
      match managerCurrent st with
      | none => .ok st
      | some _ =>
          match endActiveSpan c st with
          | .ok st' => endAllSpansGo c n st'
          | .err st' => .err st'

/-- `OpenTracingFlask.end_all_spans`: pops and closes until
`_span_manager.current` is `None`. -/
def endAllSpans (c : Coordinator) (st : TraceState) : StepResult :=
  endAllSpansGo c st.stack.length st

/-- `request.endpoint if request.endpoint else "[UNMATCHED]"`: `None` and
the empty string are falsy. -/
def resolveEndpoint (e : Option String) : String :=
  match e with
  | none => "[UNMATCHED]"
  | some s => if s = "" then "[UNMATCHED]" else s

/-- `OpenTracingFlask._request_started`: resolve the endpoint; skip when it
is `"static"` and `_trace_static` is false, or when `_request_filter`
rejects the request; otherwise extract a parent from the request headers via
the tracer, start `"Http In {method} {path}"` as a child of it, and tag it.
`extract` is the tracer's `extract(Format.HTTP_HEADERS, carrier)`. -/
def requestStarted (c : Coordinator)
    (extract : List (String × String) → Option String)
    (req : Request) (st : TraceState) : TraceState :=
  let endpoint := resolveEndpoint req.endpoint
  if endpoint = "static" ∧ ¬ c.traceStatic then st
  else if ¬ c.requestFilter req then st
  else
    let parent := extract req.headers
    let operation := "Http In " ++ req.method ++ " " ++ req.path
    let sid := st.spans.length
    let st1 := (startActiveSpan c st operation parent).1
    let st2 := setTag st1 sid "component" (.str "Flask")
    let st3 := setTag st2 sid "http.method" (.str req.method)
    let st4 := setTag st3 sid "http.url" (.str req.path)
    let st5 := setTag st4 sid "span.kind" (.str "server")
    setTag st5 sid "endpoint" (.str endpoint)

/-- `template.name or "<STRING>"`: `None` and the empty string are falsy. -/
def resolveTemplateName (n : Option String) : String :=
  match n with
  | none => "<STRING>"
  | some s => if s = "" then "<STRING>" else s

/-- `OpenTracingFlask._before_template_rendered`: unconditionally starts a
`"Jinja Rendering: {name}"` span (no parent argument) and tags it with the
template name. -/
def beforeTemplateRendered (c : Coordinator) (templateName : Option String)
    (st : TraceState) : TraceState :=
  let name := resolveTemplateName templateName
  let operation := "Jinja Rendering: " ++ name
  let sid := st.spans.length
  let st1 := (startActiveSpan c st operation none).1
  setTag st1 sid "Rendering Template" (.str name)

/-- `OpenTracingFlask._template_rendered`: `self.end_active_span()`. -/
def templateRendered (c : Coordinator) (st : TraceState) : StepResult :=
  endActiveSpan c st

/-- `OpenTracingFlask._request_finished`: `span = current_span; if span:`
tag it with the response's status code; nothing else changes. -/
def requestFinished (st : TraceState) (statusCode : Int) : TraceState :=
  match currentSpan st with
  | none => st
  | some sid => setTag st sid "http.status_code" (.int statusCode)

/-- `OpenTracingFlask._got_request_exception`: if a span is active, tag
`error=True` and `log_kv({"Type": name, "Message": str(exception)})`.
`excName` is the qualified type name the code computes, `excMessage` the
stringified exception. -/
def gotRequestException (st : TraceState) (excName excMessage : String) : TraceState :=
  match currentSpan st with
  | none => st
  | some sid =>
      let st1 := setTag st sid "error" (.bool true)
      logKv st1 sid [("Type", excName), ("Message", excMessage)]

/-- A lifecycle event as delivered by Flask's signals, with the payload the
handlers consume. `requestStarted` carries the request together with the
value the tracer's `extract` returns for its headers; `gotException` carries
the qualified exception type name and message the handler computes. -/
inductive Event where
  | requestStarted (req : Request) (extracted : Option String)
  | beforeTemplate (templateName : Option String)
  | templateRendered
  | requestFinished (statusCode : Int)
  | gotException (excName excMessage : String)
  | teardown

/-- Dispatch one lifecycle event to its handler, as `_instrument_app` wires
the signals; `teardown` is the `teardown_appcontext` callback calling
`end_all_spans`. -/
def handleEvent (c : Coordinator) (ev : Event) (st : TraceState) : StepResult :=
  match ev with
  | .requestStarted req extracted =>
      .ok (requestStarted c (fun _ => extracted) req st)
  | .beforeTemplate name => .ok (beforeTemplateRendered c name st)
  | .templateRendered => templateRendered c st
  | .requestFinished status => .ok (requestFinished st status)
  | .gotException n m => .ok (gotRequestException st n m)
  | .teardown => endAllSpans c st

/-- Run a sequence of lifecycle events in order; an escaping ownership
`RuntimeError` aborts the rest of the sequence. -/
def runEvents (c : Coordinator) : List Event → TraceState → StepResult
  | [], st => .ok st
  | ev :: evs, st =>
      match handleEvent c ev st with
      | .ok st' => runEvents c evs st'
      | .err st' => .err st'

/-- The pre-teardown part of the event sequence of claim C1:
request-started, `n` template start/finish pairs, optionally an
unhandled-error event. -/
def lifecycleFront (req : Request) (extracted : Option String)
    (renders : List (Option String)) (exc : Option (String × String)) : List Event :=
  [Event.requestStarted req extracted]
    ++ renders.flatMap (fun name => [Event.beforeTemplate name, Event.templateRendered])
    ++ (match exc with
        | none => []
        | some (n, m) => [Event.gotException n m])

/-- The event sequence of claim C1: request-started, `n` template
start/finish pairs, optionally an unhandled-error event, then teardown. -/
def lifecycleEvents (req : Request) (extracted : Option String)
    (renders : List (Option String)) (exc : Option (String × String)) : List Event :=
  lifecycleFront req extracted renders exc ++ [Event.teardown]

/-! ## Raw `start_active_span` / `end_active_span` call sequences (claim C2) -/

/-- One coordinator-level call in a raw sequence: `start_active_span` (with
some operation name and no explicit parent) or `end_active_span`. -/
inductive SOp where
  | start
  | finish
deriving DecidableEq, Repr

/-- Run a raw call sequence. An ownership error aborts the run (claim C2
only concerns runs with no ownership violation; with a single coordinator
none occurs). -/
def runOps (c : Coordinator) : List SOp → TraceState → StepResult
  | [], st => .ok st
  | .start :: ops, st => runOps c ops (startActiveSpan c st "op" none).1
  | .finish :: ops, st =>
      match endActiveSpan c st with
      | .ok st' => runOps c ops st'
      | .err st' => .err st'

/-- The span ids closed by each successive `end_active_span` call of a raw
sequence run from the empty state: entry `k` (0-based) is `some sid` when
the `(k+1)`-th `end_active_span` call closed span `sid`, and `none` when it
was a no-op on an empty stack. Formalises the spec's phrase "the span closed
by the Nth `end_active_span`". -/
def closedByEnds (c : Coordinator) : List SOp → TraceState → List (Option Nat)
  | [], _ => []
  | .start :: ops, st => closedByEnds c ops (startActiveSpan c st "op" none).1
  | .finish :: ops, st =>
      match endActiveSpan c st with
      | .ok st' =>
          (if st'.closed.length = st.closed.length then none
           else st'.closed.getLast?) :: closedByEnds c ops st'
      | .err _ => []

/-- The span closed by the Nth (1-based) `end_active_span` call of `ops`. -/
def closedByNthEnd (c : Coordinator) (ops : List SOp) (n : Nat) : Option Nat :=
  (closedByEnds c ops emptyState).getD (n - 1) none

/-- Number of `start_active_span` calls in a sequence. -/
def countStarts (ops : List SOp) : Nat := ops.countP (· = SOp.start)

/-- The index (0-based position in `ops`) of the Nth (1-based)
`end_active_span` call, when it exists. -/
def nthEndIndex (ops : List SOp) (n : Nat) : Option Nat :=
  (((ops.enum.filter (fun p => p.2 = SOp.finish)).map Prod.fst).get? (n - 1))

/-- The span opened by the "Nth-from-the-end `start_active_span` call that
preceded" the Nth `end_active_span` call, reading the claim literally: among
the start calls at positions before the Nth end call, take the Nth counting
from the most recent; its span id is the number of start calls before it
(ids are allocated in order from 0). -/
def nthFromEndStartBefore (ops : List SOp) (n : Nat) : Option Nat :=
  match nthEndIndex ops n with
  | none => none
  | some i =>
      let c := countStarts (ops.take i)
      if n ≤ c then some (c - n) else none

/-! ## Heap model of `_global_tags.copy()` (claim C9) -/

/-- A heap of Python dicts: cell `r` holds the contents of the dict at
reference `r`. The coordinator's `_global_tags` lives in one cell; every
`start_active_span` call allocates a fresh cell for `.copy()`. -/
structure Heap where
  cells : List (List (String × TagValue))
deriving DecidableEq, Repr

/-- The aliasing-relevant part of `start_active_span`:
`tags=self._global_tags.copy()` allocates a fresh dict holding the current
contents of cell `gtRef` and hands its reference to the tracer; `mutate` is
whatever in-place mutation the tracer performs on the dict it receives.
Returns the resulting heap, the reference the tracer received, and the tag
contents the new span was seeded with. -/
def startActiveSpanHeap (gtRef : Nat)
    (mutate : List (String × TagValue) → List (String × TagValue))
    (h : Heap) : Heap × Nat × List (String × TagValue) :=
  let contents := h.cells.getD gtRef []
  let newRef := h.cells.length
  let h1 : Heap := ⟨h.cells ++ [contents]⟩
  let h2 : Heap := ⟨h1.cells.set newRef (mutate contents)⟩
  (h2, newRef, contents)

/-! ## The module-level `tracing` proxy (claim C10) -/

/-- A Python exception as relevant to `__get_tracing`. -/
inductive PyError where
  | attributeError
  | keyError
  | runtimeError (msg : String)
deriving DecidableEq, Repr

/-- A Flask application as `__get_tracing` sees it: `extensions` is `none`
when the attribute does not exist, otherwise the extension dict, holding
coordinator identities. -/
structure App where
  extensions : Option (List (String × Nat))
deriving DecidableEq, Repr

/-- Evaluation of `current_app.extensions["tracing"]`. With no application
context, dereferencing the unbound `current_app` proxy raises the host
framework's `RuntimeError` ("Working outside of application context."), not
an `AttributeError` or `KeyError`; with a bound app, a missing `extensions`
attribute raises `AttributeError` and a missing `"tracing"` key raises
`KeyError`. -/
def currentAppTracingLookup (ctx : Option App) : Except PyError Nat :=
  match ctx with
  | none => .error (.runtimeError "Working outside of application context.")
  | some app =>
      match app.extensions with
      | none => .error .attributeError
      | some exts =>
          match exts.lookup "tracing" with
          | none => .error .keyError
          | some t => .ok t

/-- `__get_tracing`: evaluate `current_app.extensions["tracing"]`, turning
`AttributeError` and `KeyError` (and only those) into
`RuntimeError("OpenTracing-Flask not configured")`. -/
def getTracing (ctx : Option App) : Except PyError Nat :=
  match currentAppTracingLookup ctx with
  | .error .attributeError => .error (.runtimeError "OpenTracing-Flask not configured")
  | .error .keyError => .error (.runtimeError "OpenTracing-Flask not configured")
  | r => r

/-! ## The reachable-state invariant -/

/-- The span ids on the stack, top first. -/
def stackIds (st : TraceState) : List Nat := st.stack.map (·.scopeSpan)

/-- Invariant of every state reachable by one coordinator driving a fresh
execution context: every frame belongs to the coordinator's manager and
references a created span; span ids on the stack strictly decrease
downward (later-created spans are nearer the top); and the stack ids
together with the close log are a permutation of all created span ids. -/
structure Inv (c : Coordinator) (st : TraceState) : Prop where
  owners : ∀ f ∈ st.stack, f.owner = c.owner
  bounded : ∀ f ∈ st.stack, f.scopeSpan < st.spans.length
  sorted : (stackIds st).Pairwise (· > ·)
  perm : (stackIds st ++ st.closed).Perm (List.range st.spans.length)

/-! ## Concrete values for witnesses and counterexamples -/

/-- A coordinator with the default configuration (`trace_static=False`, no
global tags, the default always-true request filter). -/
def demoCoord : Coordinator :=
  { owner := 0, traceStatic := false, globalTags := [], requestFilter := fun _ => true }

/-- A coordinator whose request filter rejects every request. -/
def filteredCoord : Coordinator :=
  { owner := 0, traceStatic := false, globalTags := [], requestFilter := fun _ => false }

/-- A concrete request to a non-static endpoint. -/
def demoReq : Request :=
  { endpoint := some "index", method := "GET", path := "/widgets", headers := [] }

/-- A concrete span for witness states. -/
def demoSpan : Span :=
  { operation := "Http In GET /widgets", parent := none, tags := [], logs := [] }

/-- A state whose single stack frame is owned by manager `1`. -/
def mismatchState : TraceState :=
  { stack := [{ owner := 1, scopeSpan := 0 }], spans := [demoSpan], closed := [] }

/-- A state whose single stack frame is owned by manager `0` (= `demoCoord`). -/
def singleState : TraceState :=
  { stack := [{ owner := 0, scopeSpan := 0 }], spans := [demoSpan], closed := [] }

/-- A one-cell heap holding the coordinator's global tags. -/
def demoHeap : Heap := ⟨[[("env", TagValue.str "prod")]]⟩

/-- The span created by `runOps` for each `start` call. -/
def opSpan : Span := { operation := "op", parent := none, tags := [], logs := [] }

/-- The state after `runOps demoCoord [start, start, finish, start]` from
the empty state: spans `0`, `1`, `2` created, span `1` closed, spans `2`
(top) and `0` still open. -/
def lifoState : TraceState :=
  { stack := [{ owner := 0, scopeSpan := 2 }, { owner := 0, scopeSpan := 0 }],
    spans := [opSpan, opSpan, opSpan], closed := [1] }

/-- Outcome of a filtered request whose handler renders a template:
request-started is skipped by the filter, but the template-render event
still starts a span. -/
def filteredRenderOutcome : StepResult :=
  runEvents filteredCoord
    [Event.requestStarted demoReq none, Event.beforeTemplate (some "widgets.html")]
    emptyState

/-- The state `filteredRenderOutcome` reaches: one open rendering span. -/
def renderState : TraceState :=
  { stack := [{ owner := 0, scopeSpan := 0 }],
    spans := [{ operation := "Jinja Rendering: widgets.html", parent := none,
                tags := [("Rendering Template", TagValue.str "widgets.html")],
                logs := [] }],
    closed := [] }

/-! ## Basic lemmas -/

theorem modify_append_length {α : Type} (f : α → α) :
    ∀ (l : List α) (a : α), List.modify f l.length (l ++ [a]) = l ++ [f a]
  | [], _ => rfl
  | b :: l, a => congrArg (b :: ·) (modify_append_length f l a)

theorem setTag_stack (st : TraceState) (sid : Nat) (k : String) (v : TagValue) :
    (setTag st sid k v).stack = st.stack := rfl

theorem setTag_closed (st : TraceState) (sid : Nat) (k : String) (v : TagValue) :
    (setTag st sid k v).closed = st.closed := rfl

theorem setTag_spans_length (st : TraceState) (sid : Nat) (k : String) (v : TagValue) :
    (setTag st sid k v).spans.length = st.spans.length := by
  simp [setTag, List.length_modify]

theorem logKv_stack (st : TraceState) (sid : Nat) (entry : List (String × String)) :
    (logKv st sid entry).stack = st.stack := rfl

theorem logKv_closed (st : TraceState) (sid : Nat) (entry : List (String × String)) :
    (logKv st sid entry).closed = st.closed := rfl

theorem logKv_spans_length (st : TraceState) (sid : Nat) (entry : List (String × String)) :
    (logKv st sid entry).spans.length = st.spans.length := by
  simp [logKv, List.length_modify]

/-! ## C3: `pop` with ownership check -/

/-- C3 (counterexample): on an ownership mismatch, `pop` raises the
ownership error but the stack HAS been modified: the mismatched top frame
was already removed by `_tracing_span_ctx_stack.pop()` before the check. -/
theorem managerPop_mismatch_modifies_stack :
    managerPop 0 mismatchState = .ownershipViolation { mismatchState with stack := [] } ∧
    ({ mismatchState with stack := [] } : TraceState).stack ≠ mismatchState.stack := by
  decide

/-- C3 (amended): `pop(owner)` removes and returns the top frame's span iff
the top frame's owner matches; on an empty stack it fails leaving the state
unchanged; on an owner mismatch it fails and never returns a span, but the
mismatched top frame has already been removed when the error is raised. -/
theorem managerPop_spec (owner : Nat) (st : TraceState) :
    (st.stack = [] → managerPop owner st = .ownershipViolation st) ∧
    (∀ f rest, st.stack = f :: rest → f.owner = owner →
      managerPop owner st = .ok { st with stack := rest } f.scopeSpan) ∧
    (∀ f rest, st.stack = f :: rest → f.owner ≠ owner →
      managerPop owner st = .ownershipViolation { st with stack := rest }) := by
  refine ⟨fun h => by simp [managerPop, h],
    fun f rest h hf => by simp [managerPop, h, hf],
    fun f rest h hf => by simp [managerPop, h, hf]⟩

/-- Witness for `managerPop_spec` at a concrete mismatched state. -/
theorem managerPop_spec_witness :
    managerPop 0 mismatchState = .ownershipViolation { mismatchState with stack := [] } :=
  (managerPop_spec 0 mismatchState).2.2 { owner := 1, scopeSpan := 0 } [] rfl (by decide)

/-! ## C6: `end_active_span` on an empty stack -/

/-- C6: `end_active_span` on an empty stack is a no-op that never raises;
on a non-empty stack (owned by this coordinator's manager, as in any context
driven by a single coordinator) it pops and closes the top span. -/
theorem endActiveSpan_spec (c : Coordinator) (st : TraceState) :
    (st.stack = [] → endActiveSpan c st = .ok st) ∧
    (∀ f rest, st.stack = f :: rest → f.owner = c.owner →
      endActiveSpan c st = .ok { st with stack := rest, closed := st.closed ++ [f.scopeSpan] }) := by
  constructor
  · intro h; simp [endActiveSpan, currentSpan, h]
  · intro f rest h hf; simp [endActiveSpan, currentSpan, managerPop, h, hf]

/-- Witness for `endActiveSpan_spec`: the empty and singleton cases at
concrete states. -/
theorem endActiveSpan_spec_witness :
    endActiveSpan demoCoord emptyState = .ok emptyState ∧
    endActiveSpan demoCoord singleState = .ok { singleState with stack := [], closed := [0] } :=
  ⟨(endActiveSpan_spec demoCoord emptyState).1 rfl,
   (endActiveSpan_spec demoCoord singleState).2 { owner := 0, scopeSpan := 0 } [] rfl rfl⟩

/-! ## C7: drain idempotence -/

theorem endAllSpansGo_of_empty (c : Coordinator) (n : Nat) (st : TraceState)
    (h : st.stack = []) : endAllSpansGo c n st = .ok st := by
  cases n <;> simp [endAllSpansGo, managerCurrent, h]

theorem endAllSpansGo_ok_empty (c : Coordinator) :
    ∀ (n : Nat) (st st' : TraceState), st.stack.length ≤ n →
      endAllSpansGo c n st = .ok st' → st'.stack = [] := by
  intro n
  induction n with
  | zero =>
      intro st st' hle h
      have hst : st.stack = [] := List.length_eq_zero.mp (Nat.le_zero.mp hle)
      simp [endAllSpansGo] at h
      rw [← h, hst]
  | succ n ih =>
      intro st st' hle h
      cases hst : st.stack with
      | nil =>
          simp [endAllSpansGo, managerCurrent, hst] at h
          rw [← h, hst]
      | cons f rest =>
          by_cases hf : f.owner = c.owner
          · have hstep : endActiveSpan c st =
                .ok { st with stack := rest, closed := st.closed ++ [f.scopeSpan] } := by
              simp [endActiveSpan, currentSpan, managerPop, hst, hf]
            have hgo : endAllSpansGo c (n + 1) st =
                endAllSpansGo c n { st with stack := rest, closed := st.closed ++ [f.scopeSpan] } := by
              simp [endAllSpansGo, managerCurrent, hst, hstep]
            rw [hgo] at h
            refine ih _ _ ?_ h
            have hlen : st.stack.length = rest.length + 1 := by rw [hst]; rfl
            show rest.length ≤ n
            omega
          · have hstep : endActiveSpan c st = .err { st with stack := rest } := by
              simp [endActiveSpan, currentSpan, managerPop, hst, hf]
            simp [endAllSpansGo, managerCurrent, hst, hstep] at h

/-- C7: `end_all_spans` on an already-empty stack is a no-op (the state,
including the close log, is untouched), and a second `end_all_spans`
after a successful one is a no-op: the first drain leaves an empty stack. -/
theorem endAllSpans_spec (c : Coordinator) (st : TraceState) :
    (st.stack = [] → endAllSpans c st = .ok st) ∧
    (∀ st', endAllSpans c st = .ok st' → endAllSpans c st' = .ok st') := by
  constructor
  · intro h; exact endAllSpansGo_of_empty c _ st h
  · intro st' h
    have hempty : st'.stack = [] := endAllSpansGo_ok_empty c st.stack.length st st' le_rfl h
    exact endAllSpansGo_of_empty c _ st' hempty

/-- Witness for `endAllSpans_spec`: draining the empty context is a no-op,
and re-draining after draining a one-span context is a no-op. -/
theorem endAllSpans_spec_witness :
    endAllSpans demoCoord emptyState = .ok emptyState ∧
    endAllSpans demoCoord { singleState with stack := [], closed := [0] } =
      .ok { singleState with stack := [], closed := [0] } :=
  ⟨(endAllSpans_spec demoCoord emptyState).1 rfl,
   (endAllSpans_spec demoCoord singleState).2 { singleState with stack := [], closed := [0] } rfl⟩

/-! ## C8: `_request_finished` tags but does not close -/

/-- C8: the request-finished handler never changes the stack or the close
log; with no active span it is the identity; with an active span it only
appends the `http.status_code` tag to that span. -/
theorem requestFinished_spec (st : TraceState) (status : Int) :
    (requestFinished st status).stack = st.stack ∧
    (requestFinished st status).closed = st.closed ∧
    (requestFinished st status).spans.length = st.spans.length ∧
    (currentSpan st = none → requestFinished st status = st) ∧
    (∀ sid, currentSpan st = some sid →
      requestFinished st status = setTag st sid "http.status_code" (.int status) ∧
      (requestFinished st status).spans[sid]? =
        (fun sp => { sp with
          tags := sp.tags ++ [("http.status_code", TagValue.int status)] }) <$> st.spans[sid]?) := by
  refine ⟨?_, ?_, ?_, ?_, ?_⟩
  · cases h : currentSpan st <;> simp [requestFinished, h, setTag_stack]
  · cases h : currentSpan st <;> simp [requestFinished, h, setTag_closed]
  · cases h : currentSpan st <;> simp [requestFinished, h, setTag_spans_length]
  · intro h; simp [requestFinished, h]
  · intro sid h
    refine ⟨by simp [requestFinished, h], ?_⟩
    simp [requestFinished, h, setTag, List.getElem?_modify]

/-- Witness for `requestFinished_spec`: a concrete state with one active
span gets the status tag and keeps its stack. -/
theorem requestFinished_spec_witness :
    requestFinished singleState 200 = setTag singleState 0 "http.status_code" (.int 200) :=
  ((requestFinished_spec singleState 200).2.2.2.2 0 rfl).1

/-! ## C9: `_global_tags.copy()` isolation -/

/-- C9: `start_active_span` hands the tracer a fresh copy of
`_global_tags`: whatever mutation the tracer performs on the dict it
receives, the cell holding the coordinator's `_global_tags` is unchanged,
the span is seeded with exactly the global tags, and a subsequent
`start_active_span` seeds its span with the same tags. -/
theorem startActiveSpanHeap_isolated (h : Heap) (gtRef : Nat)
    (mutate mutate₂ : List (String × TagValue) → List (String × TagValue))
    (hlt : gtRef < h.cells.length) :
    (startActiveSpanHeap gtRef mutate h).1.cells.getD gtRef [] = h.cells.getD gtRef [] ∧
    (startActiveSpanHeap gtRef mutate h).2.2 = h.cells.getD gtRef [] ∧
    (startActiveSpanHeap gtRef mutate₂ (startActiveSpanHeap gtRef mutate h).1).2.2
      = (startActiveSpanHeap gtRef mutate h).2.2 := by
  have key : ∀ m : List (String × TagValue) → List (String × TagValue),
      (startActiveSpanHeap gtRef m h).1.cells.getD gtRef [] = h.cells.getD gtRef [] := by
    intro m
    show ((h.cells ++ [h.cells.getD gtRef []]).set h.cells.length
        (m (h.cells.getD gtRef []))).getD gtRef [] = h.cells.getD gtRef []
    rw [List.getD_eq_getElem?_getD, List.getD_eq_getElem?_getD,
      List.getElem?_set_ne (Nat.ne_of_gt hlt), List.getElem?_append]
    simp [hlt]
  exact ⟨key mutate, rfl, key mutate⟩

/-- Witness for `startActiveSpanHeap_isolated`: a tracer that empties the
dict it receives does not change the coordinator's global tags. -/
theorem startActiveSpanHeap_isolated_witness :
    (startActiveSpanHeap 0 (fun _ => []) demoHeap).1.cells.getD 0 [] =
      demoHeap.cells.getD 0 [] :=
  (startActiveSpanHeap_isolated demoHeap 0 (fun _ => []) (fun _ => []) (by decide)).1

/-! ## C10: the module-level `tracing` proxy -/

/-- C10 (counterexample): with no application context at all, dereferencing
the proxy raises the host framework's application-context `RuntimeError`,
not the "OpenTracing-Flask not configured" one: the `except` clause of
`__get_tracing` only catches `AttributeError` and `KeyError`. -/
theorem getTracing_no_app_context_message :
    getTracing none = .error (.runtimeError "Working outside of application context.") ∧
    getTracing none ≠ .error (.runtimeError "OpenTracing-Flask not configured") := by
  refine ⟨rfl, fun h => ?_⟩
  rw [show getTracing none =
    .error (.runtimeError "Working outside of application context.") from rfl] at h
  exact absurd (PyError.runtimeError.inj (Except.error.inj h)) (by decide)

/-- C10 (amended): dereferencing the `tracing` proxy never yields a partial
or empty coordinator: when an application context exists but the app lacks
an `extensions` attribute or a registered `"tracing"` extension, it raises
`RuntimeError("OpenTracing-Flask not configured")`; with no application
context the framework's context `RuntimeError` propagates; a coordinator is
returned only when one is actually registered. -/
theorem getTracing_spec :
    (∀ app : App, app.extensions = none →
      getTracing (some app) = .error (.runtimeError "OpenTracing-Flask not configured")) ∧
    (∀ (app : App) (exts : List (String × Nat)), app.extensions = some exts →
      exts.lookup "tracing" = none →
      getTracing (some app) = .error (.runtimeError "OpenTracing-Flask not configured")) ∧
    getTracing none = .error (.runtimeError "Working outside of application context.") ∧
    (∀ (ctx : Option App) (t : Nat), getTracing ctx = .ok t →
      ∃ app exts, ctx = some app ∧ app.extensions = some exts ∧
        exts.lookup "tracing" = some t) := by
  refine ⟨?_, ?_, rfl, ?_⟩
  · intro app h; simp [getTracing, currentAppTracingLookup, h]
  · intro app exts h hl; simp [getTracing, currentAppTracingLookup, h, hl]
  · intro ctx t h
    match ctx with
    | none => simp [getTracing, currentAppTracingLookup] at h
    | some app =>
        cases hext : app.extensions with
        | none => simp [getTracing, currentAppTracingLookup, hext] at h
        | some exts =>
            cases hl : exts.lookup "tracing" with
            | none => simp [getTracing, currentAppTracingLookup, hext, hl] at h
            | some t0 =>
                simp [getTracing, currentAppTracingLookup, hext, hl] at h
                exact ⟨app, exts, rfl, hext, by rw [hl, h]⟩

/-- Witness for `getTracing_spec`: an app with an empty extension dict. -/
theorem getTracing_spec_witness :
    getTracing (some { extensions := some [] }) =
      .error (.runtimeError "OpenTracing-Flask not configured") :=
  getTracing_spec.2.1 { extensions := some [] } [] rfl rfl

/-! ## Invariant preservation -/

theorem stackIds_setTag (st : TraceState) (sid : Nat) (k : String) (v : TagValue) :
    stackIds (setTag st sid k v) = stackIds st := rfl

theorem stackIds_logKv (st : TraceState) (sid : Nat) (entry : List (String × String)) :
    stackIds (logKv st sid entry) = stackIds st := rfl

theorem inv_emptyState (c : Coordinator) : Inv c emptyState := by
  refine ⟨?_, ?_, ?_, ?_⟩ <;> simp [emptyState, stackIds]

theorem startActiveSpan_closed (c : Coordinator) (st : TraceState)
    (operation : String) (parent : Option String) :
    (startActiveSpan c st operation parent).1.closed = st.closed := rfl

theorem startActiveSpan_spans_length (c : Coordinator) (st : TraceState)
    (operation : String) (parent : Option String) :
    (startActiveSpan c st operation parent).1.spans.length = st.spans.length + 1 := by
  simp [startActiveSpan]

theorem stackIds_startActiveSpan (c : Coordinator) (st : TraceState)
    (operation : String) (parent : Option String) :
    stackIds (startActiveSpan c st operation parent).1 =
      st.spans.length :: stackIds st := rfl

theorem inv_startActiveSpan {c : Coordinator} {st : TraceState}
    (operation : String) (parent : Option String) (h : Inv c st) :
    Inv c (startActiveSpan c st operation parent).1 := by
  obtain ⟨ho, hb, hs, hp⟩ := h
  refine ⟨?_, ?_, ?_, ?_⟩
  · intro f hf
    rcases List.mem_cons.mp hf with h | h
    · rw [h]
    · exact ho f h
  · intro f hf
    rw [startActiveSpan_spans_length]
    rcases List.mem_cons.mp hf with h | h
    · rw [h]; show st.spans.length < st.spans.length + 1; omega
    · have := hb f h; omega
  · rw [stackIds_startActiveSpan, List.pairwise_cons]
    refine ⟨?_, hs⟩
    intro x hx
    obtain ⟨f, hf, hfx⟩ := List.mem_map.mp hx
    rw [← hfx]
    exact hb f hf
  · rw [stackIds_startActiveSpan, startActiveSpan_closed, startActiveSpan_spans_length,
      List.range_succ]
    exact (hp.cons st.spans.length).trans
      (List.perm_append_singleton st.spans.length (List.range st.spans.length)).symm

theorem inv_setTag {c : Coordinator} {st : TraceState}
    (sid : Nat) (k : String) (v : TagValue) (h : Inv c st) : Inv c (setTag st sid k v) := by
  obtain ⟨ho, hb, hs, hp⟩ := h
  refine ⟨?_, ?_, ?_, ?_⟩
  · intro f hf; exact ho f hf
  · intro f hf; rw [setTag_spans_length]; exact hb f hf
  · rw [stackIds_setTag]; exact hs
  · rw [stackIds_setTag, setTag_closed, setTag_spans_length]; exact hp

theorem inv_logKv {c : Coordinator} {st : TraceState}
    (sid : Nat) (entry : List (String × String)) (h : Inv c st) :
    Inv c (logKv st sid entry) := by
  obtain ⟨ho, hb, hs, hp⟩ := h
  refine ⟨?_, ?_, ?_, ?_⟩
  · intro f hf; exact ho f hf
  · intro f hf; rw [logKv_spans_length]; exact hb f hf
  · rw [stackIds_logKv]; exact hs
  · rw [stackIds_logKv, logKv_closed, logKv_spans_length]; exact hp

theorem inv_pop {c : Coordinator} {st : TraceState} {f : Frame} {rest : List Frame}
    (h : Inv c st) (hst : st.stack = f :: rest) :
    Inv c { st with stack := rest, closed := st.closed ++ [f.scopeSpan] } := by
  obtain ⟨ho, hb, hs, hp⟩ := h
  have hids : stackIds st = f.scopeSpan :: rest.map (·.scopeSpan) := by
    rw [stackIds, hst]; rfl
  refine ⟨?_, ?_, ?_, ?_⟩
  · intro g hg; exact ho g (by rw [hst]; exact List.mem_cons_of_mem f hg)
  · intro g hg; exact hb g (by rw [hst]; exact List.mem_cons_of_mem f hg)
  · show (rest.map (·.scopeSpan)).Pairwise (· > ·)
    rw [hids] at hs
    exact (List.pairwise_cons.mp hs).2
  · show (rest.map (·.scopeSpan) ++ (st.closed ++ [f.scopeSpan])).Perm
      (List.range st.spans.length)
    have h1 : (rest.map (·.scopeSpan) ++ (st.closed ++ [f.scopeSpan])).Perm
        (f.scopeSpan :: (rest.map (·.scopeSpan) ++ st.closed)) := by
      rw [← List.append_assoc]
      exact List.perm_append_singleton f.scopeSpan (rest.map (·.scopeSpan) ++ st.closed)
    have h2 : f.scopeSpan :: (rest.map (·.scopeSpan) ++ st.closed) = stackIds st ++ st.closed := by
      rw [hids]; rfl
    exact h1.trans (h2 ▸ hp)

theorem inv_endActiveSpan {c : Coordinator} {st : TraceState} (h : Inv c st) :
    (st.stack = [] ∧ endActiveSpan c st = .ok st) ∨
    (∃ f rest, st.stack = f :: rest ∧
      endActiveSpan c st = .ok { st with stack := rest, closed := st.closed ++ [f.scopeSpan] } ∧
      Inv c { st with stack := rest, closed := st.closed ++ [f.scopeSpan] }) := by
  cases hst : st.stack with
  | nil => exact Or.inl ⟨rfl, by simp [endActiveSpan, currentSpan, hst]⟩
  | cons f rest =>
      have hf : f.owner = c.owner := h.owners f (by rw [hst]; exact List.mem_cons_self f rest)
      exact Or.inr ⟨f, rest, rfl,
        by simp [endActiveSpan, currentSpan, managerPop, hst, hf], inv_pop h hst⟩

theorem inv_endAllSpansGo (c : Coordinator) :
    ∀ (n : Nat) (st : TraceState), Inv c st → st.stack.length ≤ n →
      ∃ st', endAllSpansGo c n st = .ok st' ∧ Inv c st' ∧ st'.stack = [] := by
  intro n
  induction n with
  | zero =>
      intro st h hle
      have hst : st.stack = [] := List.length_eq_zero.mp (Nat.le_zero.mp hle)
      exact ⟨st, rfl, h, hst⟩
  | succ n ih =>
      intro st h hle
      cases hst : st.stack with
      | nil => exact ⟨st, by simp [endAllSpansGo, managerCurrent, hst], h, hst⟩
      | cons f rest =>
          rcases inv_endActiveSpan h with ⟨hnil, _⟩ | ⟨f', rest', hst', hstep, hinv⟩
          · rw [hnil] at hst; cases hst
          · rw [hst] at hst'
            cases hst'
            obtain ⟨st', hgo, hinv', hempty⟩ := ih _ hinv (by
              have : st.stack.length = rest.length + 1 := by rw [hst]; rfl
              show rest.length ≤ n
              omega)
            refine ⟨st', ?_, hinv', hempty⟩
            rw [← hgo]
            simp [endAllSpansGo, managerCurrent, hst, hstep]

theorem inv_endAllSpans {c : Coordinator} {st : TraceState} (h : Inv c st) :
    ∃ st', endAllSpans c st = .ok st' ∧ Inv c st' ∧ st'.stack = [] :=
  inv_endAllSpansGo c st.stack.length st h le_rfl

theorem inv_requestStarted {c : Coordinator} {st : TraceState}
    (extract : List (String × String) → Option String) (req : Request)
    (h : Inv c st) : Inv c (requestStarted c extract req st) := by
  rw [requestStarted]
  split
  · exact h
  · split
    · exact h
    · exact inv_setTag _ _ _ (inv_setTag _ _ _ (inv_setTag _ _ _ (inv_setTag _ _ _
        (inv_setTag _ _ _ (inv_startActiveSpan _ _ h)))))

theorem inv_beforeTemplateRendered {c : Coordinator} {st : TraceState}
    (templateName : Option String) (h : Inv c st) :
    Inv c (beforeTemplateRendered c templateName st) :=
  inv_setTag _ _ _ (inv_startActiveSpan _ _ h)

theorem inv_requestFinished {c : Coordinator} {st : TraceState}
    (status : Int) (h : Inv c st) : Inv c (requestFinished st status) := by
  rw [requestFinished]
  cases hcs : currentSpan st with
  | none => exact h
  | some sid => exact inv_setTag _ _ _ h

theorem inv_gotRequestException {c : Coordinator} {st : TraceState}
    (excName excMessage : String) (h : Inv c st) :
    Inv c (gotRequestException st excName excMessage) := by
  rw [gotRequestException]
  cases hcs : currentSpan st with
  | none => exact h
  | some sid => exact inv_logKv _ _ (inv_setTag _ _ _ h)

theorem inv_handleEvent {c : Coordinator} {st : TraceState} (ev : Event) (h : Inv c st) :
    ∃ st', handleEvent c ev st = .ok st' ∧ Inv c st' := by
  cases ev with
  | requestStarted req extracted => exact ⟨_, rfl, inv_requestStarted _ req h⟩
  | beforeTemplate name => exact ⟨_, rfl, inv_beforeTemplateRendered name h⟩
  | templateRendered =>
      rcases inv_endActiveSpan h with ⟨_, hstep⟩ | ⟨f, rest, _, hstep, hinv⟩
      · exact ⟨st, hstep, h⟩
      · exact ⟨_, hstep, hinv⟩
  | requestFinished status => exact ⟨_, rfl, inv_requestFinished status h⟩
  | gotException n m => exact ⟨_, rfl, inv_gotRequestException n m h⟩
  | teardown =>
      obtain ⟨st', hstep, hinv, _⟩ := inv_endAllSpans h
      exact ⟨st', hstep, hinv⟩

theorem inv_runEvents (c : Coordinator) :
    ∀ (evs : List Event) (st : TraceState), Inv c st →
      ∃ st', runEvents c evs st = .ok st' ∧ Inv c st' := by
  intro evs
  induction evs with
  | nil => exact fun st h => ⟨st, rfl, h⟩
  | cons ev evs ih =>
      intro st h
      obtain ⟨st1, hstep, h1⟩ := inv_handleEvent ev h
      obtain ⟨st2, hrun, h2⟩ := ih st1 h1
      exact ⟨st2, by simp [runEvents, hstep, hrun], h2⟩

theorem runEvents_append (c : Coordinator) (l₁ l₂ : List Event) (st : TraceState) :
    runEvents c (l₁ ++ l₂) st =
      match runEvents c l₁ st with
      | .ok st' => runEvents c l₂ st'
      | .err st' => .err st' := by
  induction l₁ generalizing st with
  | nil => rfl
  | cons ev l₁ ih =>
      rw [List.cons_append, runEvents, runEvents]
      cases h : handleEvent c ev st with
      | ok st1 => exact ih st1
      | err st1 => rfl

/-! ## C1: leak-free teardown -/

/-- C1: for every request-started event, any number of template
start/finish pairs, an optional unhandled-error event, and the final
teardown, the run succeeds, the stack is empty after teardown, and the
close log is a permutation of all created span ids — every span pushed
during the sequence was closed exactly once. -/
theorem lifecycle_leak_free (c : Coordinator) (req : Request) (extracted : Option String)
    (renders : List (Option String)) (exc : Option (String × String)) :
    ∃ st, runEvents c (lifecycleEvents req extracted renders exc) emptyState = .ok st ∧
      st.stack = [] ∧ st.closed.Perm (List.range st.spans.length) ∧
      ∀ sid < st.spans.length, st.closed.count sid = 1 := by
  have hsplit : lifecycleEvents req extracted renders exc =
      lifecycleFront req extracted renders exc ++ [Event.teardown] := rfl
  obtain ⟨st1, hrun1, h1⟩ := inv_runEvents c
    (lifecycleFront req extracted renders exc) emptyState (inv_emptyState c)
  obtain ⟨st2, htd, h2, hempty⟩ := inv_endAllSpans h1
  have hids : stackIds st2 = [] := by rw [stackIds, hempty]; rfl
  have hperm : st2.closed.Perm (List.range st2.spans.length) := by
    have hp := h2.perm
    rw [hids] at hp
    simpa using hp
  refine ⟨st2, ?_, hempty, hperm, ?_⟩
  · rw [hsplit, runEvents_append, hrun1]
    show runEvents c [Event.teardown] st1 = .ok st2
    rw [runEvents]
    have hh : handleEvent c Event.teardown st1 = .ok st2 := htd
    rw [hh]
    rfl
  · intro sid hsid
    rw [hperm.count_eq sid]
    exact List.count_eq_one_of_mem (List.nodup_range _) (List.mem_range.mpr hsid)

/-! ## C2: LIFO correctness -/

theorem inv_runOps (c : Coordinator) :
    ∀ (ops : List SOp) (st : TraceState), Inv c st →
      ∃ st', runOps c ops st = .ok st' ∧ Inv c st' := by
  intro ops
  induction ops with
  | nil => exact fun st h => ⟨st, rfl, h⟩
  | cons op ops ih =>
      intro st h
      cases op with
      | start =>
          obtain ⟨st', hrun, h'⟩ := ih _ (inv_startActiveSpan "op" none h)
          exact ⟨st', hrun, h'⟩
      | finish =>
          rcases inv_endActiveSpan h with ⟨_, hstep⟩ | ⟨f, rest, _, hstep, hinv⟩
          · obtain ⟨st', hrun, h'⟩ := ih st h
            exact ⟨st', by rw [runOps, hstep]; exact hrun, h'⟩
          · obtain ⟨st', hrun, h'⟩ := ih _ hinv
            exact ⟨st', by rw [runOps, hstep]; exact hrun, h'⟩

/-- C2 (counterexample): reading the claim literally fails on interleaved
sequences. In `[start, start, end, start, end]`, the 2nd `end_active_span`
closes span `2` (the third span started), but the 2nd-from-the-end
`start_active_span` call preceding it opened span `1`. -/
theorem lifo_literal_counterexample :
    closedByNthEnd demoCoord [.start, .start, .finish, .start, .finish] 2 = some 2 ∧
    nthFromEndStartBefore [.start, .start, .finish, .start, .finish] 2 = some 1 ∧
    (2 : Nat) ≠ 1 := by
  decide

/-- C2 (amended): in any `start_active_span`/`end_active_span` sequence run
by one coordinator from a fresh context (no ownership violation occurs),
each `end_active_span` on a non-empty stack closes exactly the most
recently opened span among those not yet closed. -/
theorem endActiveSpan_lifo (c : Coordinator) (ops : List SOp) (st : TraceState)
    (f : Frame) (rest : List Frame)
    (hrun : runOps c ops emptyState = .ok st) (hstack : st.stack = f :: rest) :
    endActiveSpan c st = .ok { st with stack := rest, closed := st.closed ++ [f.scopeSpan] } ∧
    f.scopeSpan < st.spans.length ∧ f.scopeSpan ∉ st.closed ∧
    ∀ j, j < st.spans.length → j ∉ st.closed → j ≤ f.scopeSpan := by
  obtain ⟨st', hrun', hinv⟩ := inv_runOps c ops emptyState (inv_emptyState c)
  rw [hrun] at hrun'
  cases hrun'
  have hmem : f ∈ st.stack := by rw [hstack]; exact List.mem_cons_self f rest
  have hf : f.owner = c.owner := hinv.owners f hmem
  have hb : f.scopeSpan < st.spans.length := hinv.bounded f hmem
  have hcount : ∀ j, (stackIds st).count j + st.closed.count j =
      (List.range st.spans.length).count j := by
    intro j
    have := hinv.perm.count_eq j
    rwa [List.count_append] at this
  have hids : stackIds st = f.scopeSpan :: rest.map (·.scopeSpan) := by
    rw [stackIds, hstack]; rfl
  have htopmem : f.scopeSpan ∈ stackIds st := List.mem_map.mpr ⟨f, hmem, rfl⟩
  refine ⟨by simp [endActiveSpan, currentSpan, managerPop, hstack, hf], hb, ?_, ?_⟩
  · intro hcl
    have h1 : (List.range st.spans.length).count f.scopeSpan = 1 :=
      List.count_eq_one_of_mem (List.nodup_range _) (List.mem_range.mpr hb)
    have h2 : 0 < (stackIds st).count f.scopeSpan := List.count_pos_iff.mpr htopmem
    have h3 : 0 < st.closed.count f.scopeSpan := List.count_pos_iff.mpr hcl
    have h4 := hcount f.scopeSpan
    omega
  · intro j hj hnot
    have h1 : (List.range st.spans.length).count j = 1 :=
      List.count_eq_one_of_mem (List.nodup_range _) (List.mem_range.mpr hj)
    have h2 : st.closed.count j = 0 := List.count_eq_zero.mpr hnot
    have h3 : 0 < (stackIds st).count j := by
      have h4 := hcount j
      omega
    have hjmem : j ∈ stackIds st := List.count_pos_iff.mp h3
    rw [hids] at hjmem
    rcases List.mem_cons.mp hjmem with h | h
    · exact le_of_eq h
    · have hsorted := hinv.sorted
      rw [hids] at hsorted
      have := (List.pairwise_cons.mp hsorted).1 j h
      omega

/-- Witness for `endActiveSpan_lifo`: after `[start, start, end, start]`
the next `end_active_span` closes span `2`, the most recently opened
still-open span. -/
theorem endActiveSpan_lifo_witness :
    endActiveSpan demoCoord lifoState =
      .ok { lifoState with stack := [{ owner := 0, scopeSpan := 0 }], closed := [1, 2] } :=
  (endActiveSpan_lifo demoCoord [.start, .start, .finish, .start] lifoState
    { owner := 0, scopeSpan := 2 } [{ owner := 0, scopeSpan := 0 }] rfl rfl).1

/-! ## C4: filtering -/

/-- C4 (counterexample): with a filter that rejects every request, a
request whose handler renders a template still gets a span: the
before-render handler starts one unconditionally, so `current_span` is
non-empty during that request's lifecycle. -/
theorem filtered_render_creates_span :
    filteredCoord.requestFilter demoReq = false ∧
    filteredRenderOutcome = .ok renderState ∧
    renderState.spans.length = 1 ∧
    currentSpan renderState = some 0 := by
  refine ⟨rfl, ?_, rfl, rfl⟩
  decide

theorem handleEvent_keeps_empty (c : Coordinator) (ev : Event)
    (hfil : ∀ req ex, ev = Event.requestStarted req ex → c.requestFilter req = false)
    (hren : ∀ name, ev ≠ Event.beforeTemplate name) :
    handleEvent c ev emptyState = .ok emptyState := by
  cases ev with
  | requestStarted req ex =>
      have h := hfil req ex rfl
      show StepResult.ok (requestStarted c (fun _ => ex) req emptyState) = .ok emptyState
      rw [requestStarted]
      simp [h]
  | beforeTemplate name => exact absurd rfl (hren name)
  | templateRendered => rfl
  | requestFinished status => rfl
  | gotException n m => rfl
  | teardown => exact endAllSpansGo_of_empty c _ emptyState rfl

theorem runEvents_keeps_empty (c : Coordinator) :
    ∀ evs : List Event,
      (∀ req ex, Event.requestStarted req ex ∈ evs → c.requestFilter req = false) →
      (∀ name, Event.beforeTemplate name ∉ evs) →
      runEvents c evs emptyState = .ok emptyState := by
  intro evs
  induction evs with
  | nil => exact fun _ _ => rfl
  | cons ev evs ih =>
      intro hfil hren
      have hstep : handleEvent c ev emptyState = .ok emptyState :=
        handleEvent_keeps_empty c ev
          (fun req ex h => hfil req ex (by rw [← h]; exact List.mem_cons_self ev evs))
          (fun name h => hren name (by rw [← h]; exact List.mem_cons_self ev evs))
      rw [runEvents, hstep]
      exact ih (fun req ex h => hfil req ex (List.mem_cons_of_mem ev h))
        (fun name h => hren name (List.mem_cons_of_mem ev h))

/-- C4 (amended): for a request the filter rejects, the request-started
event creates no span and leaves the context untouched, and — provided no
template-render event occurs during the lifecycle — the whole run keeps the
fresh empty state: no span is ever created, `current_span` is empty
throughout, and `end_active_span`/`end_all_spans` are no-ops for that
context. (A template-render event, however, does create a span even in a
filtered request.) -/
theorem filtered_request_no_spans (c : Coordinator) (evs : List Event)
    (hfil : ∀ req ex, Event.requestStarted req ex ∈ evs → c.requestFilter req = false)
    (hren : ∀ name, Event.beforeTemplate name ∉ evs) :
    runEvents c evs emptyState = .ok emptyState ∧
    emptyState.spans.length = 0 ∧
    currentSpan emptyState = none ∧
    endActiveSpan c emptyState = .ok emptyState ∧
    endAllSpans c emptyState = .ok emptyState :=
  ⟨runEvents_keeps_empty c evs hfil hren, rfl, rfl, rfl,
    endAllSpansGo_of_empty c _ emptyState rfl⟩

/-- Witness for `filtered_request_no_spans`: a filtered request with a
response and teardown but no template rendering leaves the context in the
fresh empty state. -/
theorem filtered_request_no_spans_witness :
    runEvents filteredCoord
      [Event.requestStarted demoReq none, Event.requestFinished 200, Event.teardown]
      emptyState = .ok emptyState :=
  (filtered_request_no_spans filteredCoord
    [Event.requestStarted demoReq none, Event.requestFinished 200, Event.teardown]
    (by
      intro req ex h
      simp at h
      obtain ⟨h1, _⟩ := h
      subst h1
      rfl)
    (by intro name h; simp at h)).1

/-! ## C5: the request-started mapping -/

/-- C5: request-started skips (state unchanged, no span) when the resolved
endpoint is `"static"` with `trace_static` off, or when the filter rejects
the request; otherwise it pushes one new span named
`"Http In {method} {path}"`, whose parent is the reference the tracer
extracts from the request headers, seeded with the global tags and tagged
with component, http-method, http-url, span-kind=server and the endpoint
name, in that order. -/
theorem requestStarted_spec (c : Coordinator)
    (extract : List (String × String) → Option String) (req : Request) (st : TraceState) :
    (resolveEndpoint req.endpoint = "static" → c.traceStatic = false →
      requestStarted c extract req st = st) ∧
    (c.requestFilter req = false → requestStarted c extract req st = st) ∧
    ((resolveEndpoint req.endpoint = "static" → c.traceStatic = true) →
      c.requestFilter req = true →
      requestStarted c extract req st =
        { stack := { owner := c.owner, scopeSpan := st.spans.length } :: st.stack,
          spans := st.spans ++
            [{ operation := "Http In " ++ req.method ++ " " ++ req.path,
               parent := extract req.headers,
               tags := c.globalTags ++
                 [("component", .str "Flask"), ("http.method", .str req.method),
                  ("http.url", .str req.path), ("span.kind", .str "server"),
                  ("endpoint", .str (resolveEndpoint req.endpoint))],
               logs := [] }],
          closed := st.closed }) := by
  refine ⟨?_, ?_, ?_⟩
  · intro h1 h2
    rw [requestStarted]
    simp [h1, h2]
  · intro h
    rw [requestStarted]
    split
    · rfl
    · simp [h]
  · intro h1 h2
    have hcond : ¬(resolveEndpoint req.endpoint = "static" ∧ ¬(c.traceStatic = true)) := by
      rintro ⟨hs, hts⟩
      exact hts (h1 hs)
    rw [requestStarted]
    rw [if_neg hcond]
    simp only [h2, not_true_eq_false, if_false, ite_false]
    simp [startActiveSpan, setTag, modify_append_length]

/-- Witness for `requestStarted_spec`: a concrete GET request to a
non-static endpoint with the default coordinator produces exactly one
pushed, fully-tagged span. -/
theorem requestStarted_spec_witness :
    requestStarted demoCoord (fun _ => none) demoReq emptyState =
      { stack := [{ owner := 0, scopeSpan := 0 }],
        spans := [{ operation := "Http In GET /widgets", parent := none,
                    tags := [("component", .str "Flask"), ("http.method", .str "GET"),
                             ("http.url", .str "/widgets"), ("span.kind", .str "server"),
                             ("endpoint", .str "index")], logs := [] }],
        closed := [] } :=
  (requestStarted_spec demoCoord (fun _ => none) demoReq emptyState).2.2
    (fun h => absurd h (by decide)) rfl

end OpentracingFlask
